import Mathlib

/-!
Verification of the `storm` ORM (Go) against its specification.

Shallow embedding of `storm.go` and `query_builder.go`.  Machine integers
are modelled as unbounded `Int` with explicit wrapping (`% 2^w`) exactly
where the Go code performs a narrowing conversion; `float64` values are
modelled as exact rationals `ℚ` (all numeric literals appearing in the
claims are exactly representable, and `math.Ceil` / `int64(...)` agree
with exact rational ceiling / truncation on this range); dynamically
typed `interface{}` values are the inductive `Val`; fallible operations
return `Except String`.  A database `Exec`/`Query` call is modelled by
returning the SQL text together with the ordered argument list.
-/

deriving instance DecidableEq for Except

namespace Storm

/-- ASCII lower-casing of one character, as `strings.ToLower` acts on the
ASCII identifiers appearing in this code base. -/
def charToLower (c : Char) : Char :=
  if 'A' ≤ c ∧ c ≤ 'Z' then Char.ofNat (c.toNat + 32) else c

/-- Go `strings.ToLower` (restricted to ASCII, which covers every Go
identifier and tag in the repository). -/
def goToLower (s : String) : String :=
  String.mk (s.data.map charToLower)

/-- Does the character list start with `sub`? (helper for `goContains`). -/
def charsStartWith : List Char → List Char → Bool
  | _, [] => true
  | [], _ :: _ => false
  | c :: cs, d :: ds => c == d && charsStartWith cs ds

/-- Does the character list contain `sub` as a contiguous run? -/
def charsContain (sub : List Char) : List Char → Bool
  | [] => sub.isEmpty
  | c :: cs => charsStartWith (c :: cs) sub || charsContain sub cs

/-- Go `strings.Contains`. -/
def goContains (s sub : String) : Bool :=
  charsContain sub.data s.data

/-- Split a character list at every occurrence of the character `sep`. -/
def splitOnChar (sep : Char) : List Char → List (List Char)
  | [] => [[]]
  | c :: cs =>
    let r := splitOnChar sep cs
    if c == sep then [] :: r
    else
      match r with
      | [] => [[c]]
      | p :: ps => (c :: p) :: ps

/-- Go `strings.Split(s, ":")`: the code only ever splits on the single
character `":"`. -/
def goSplitColon (s : String) : List String :=
  (splitOnChar ':' s.data).map String.mk

/-- Go `strings.Join`. -/
def goJoin (sep : String) : List String → String
  | [] => ""
  | [s] => s
  | s :: t :: rest => s ++ sep ++ goJoin sep (t :: rest)

/-- A dynamically typed value travelling through `interface{}`: the
driver-returned source values and the contents of struct fields.
`vFloat64` carries an exact rational standing for the `float64` bits;
stored integer field contents are normalised to `vInt64` (resp.
`vUint64`), mirroring that reflect's `SetInt`/`SetUint` take the value
through `int64`/`uint64`. -/
inductive Val where
  | vInt64 : Int → Val
  | vInt32 : Int → Val
  | vInt : Int → Val
  | vUint64 : Nat → Val
  | vFloat64 : ℚ → Val
  | vString : String → Val
  | vBytes : List Nat → Val
  | vBool : Bool → Val
  | vNull : Val
deriving DecidableEq, Repr

/-- The name `%T` prints for a source value's dynamic type. -/
def Val.typeName : Val → String
  | .vInt64 _ => "int64"
  | .vInt32 _ => "int32"
  | .vInt _ => "int"
  | .vUint64 _ => "uint64"
  | .vFloat64 _ => "float64"
  | .vString _ => "string"
  | .vBytes _ => "[]uint8"
  | .vBool _ => "bool"
  | .vNull => "<nil>"

/-- The reflect kind of a destination struct field's static type.
`other` carries the printed type name used by `%v` on the reflect type. -/
inductive Kind where
  | int | int8 | int16 | int32 | int64
  | uint | uint8 | uint16 | uint32 | uint64
  | float32 | float64
  | string | bool
  | other : String → Kind
deriving DecidableEq, Repr

/-- The name `%v` prints for a field's reflect type. -/
def Kind.typeName : Kind → String
  | .int => "int" | .int8 => "int8" | .int16 => "int16"
  | .int32 => "int32" | .int64 => "int64"
  | .uint => "uint" | .uint8 => "uint8" | .uint16 => "uint16"
  | .uint32 => "uint32" | .uint64 => "uint64"
  | .float32 => "float32" | .float64 => "float64"
  | .string => "string" | .bool => "bool"
  | .other n => n

/-- Bit width of an integer kind (Go `int`/`uint` are 64-bit on the
supported platforms). -/
def kindWidth : Kind → Nat
  | .int8 | .uint8 => 8
  | .int16 | .uint16 => 16
  | .int32 | .uint32 => 32
  | _ => 64

/-- Result of storing `x` through a Go narrowing conversion to a signed
integer of width `w` (two's-complement wrap), as `reflect.Value.SetInt`
does: it performs the plain Go conversion, silently truncating. -/
def wrapSigned (w : Nat) (x : Int) : Int :=
  (x + 2 ^ (w - 1)) % 2 ^ w - 2 ^ (w - 1)

/-- Result of storing `x` through Go conversions `uint64(x)` then a
narrowing to width `w`, as `reflect.Value.SetUint` does. -/
def wrapUnsigned (w : Nat) (x : Int) : Nat :=
  (x % 2 ^ w).toNat

/-- Go conversion `int64(f)` of a `float64`: truncation toward zero. -/
def ratTrunc (q : ℚ) : Int :=
  Int.tdiv q.num q.den

/-- One struct field of a destination record: Go field name, the raw
`storm` tag (`none` when the tag is absent, matching `Tag.Lookup`), the
static kind and the current dynamic content. -/
structure GoField where
  name : String
  tag : Option String
  kind : Kind
  value : Val
deriving DecidableEq, Repr

/-- `reflect.StructTag.Get("storm")`: empty string when absent. -/
def tagGet (f : GoField) : String := f.tag.getD ""

/-- Go assignability of a source value's dynamic type to a field type:
exact type identity for the base types occurring here (`int64` is not
assignable to `int`, etc.). -/
def assignableTo : Val → Kind → Bool
  | .vInt64 _, .int64 => true
  | .vInt32 _, .int32 => true
  | .vInt _, .int => true
  | .vUint64 _, .uint64 => true
  | .vFloat64 _, .float64 => true
  | .vString _, .string => true
  | .vBool _, .bool => true
  | _, _ => false

/-- `reflect.Value.IsZero` on a field's content. -/
def Val.isZero : Val → Bool
  | .vInt64 n => n == 0
  | .vInt32 n => n == 0
  | .vInt n => n == 0
  | .vUint64 n => n == 0
  | .vFloat64 q => q == 0
  | .vString s => s == ""
  | .vBytes bs => bs.isEmpty
  | .vBool b => !b
  | .vNull => true

/-- Go `string(b)` on a byte slice (raw bytes read as text; the claims
never exercise multi-byte sequences). -/
def bytesToString (bs : List Nat) : String :=
  String.mk (bs.map Char.ofNat)

/-- `setFieldValue` from `query_builder.go` (lines 386-464): store the
dynamically typed `value` into `field`, or report a conversion error.
A `nil` source leaves the field untouched.  The reflect calls
`SetInt`/`SetUint` store through the plain Go narrowing conversion,
wrapping silently when the value exceeds the target's range. -/
def setFieldValue (f : GoField) (v : Val) : Except String GoField :=
  match v with
  | .vNull => .ok f
  | _ =>
    if assignableTo v f.kind then .ok { f with value := v }
    else
      match f.kind with
      | .int | .int8 | .int16 | .int32 | .int64 =>
        match v with
        | .vInt64 x => .ok { f with value := .vInt64 (wrapSigned (kindWidth f.kind) x) }
        | .vInt32 x => .ok { f with value := .vInt64 (wrapSigned (kindWidth f.kind) x) }
        | .vInt x => .ok { f with value := .vInt64 (wrapSigned (kindWidth f.kind) x) }
        | .vFloat64 q => .ok { f with value := .vInt64 (wrapSigned (kindWidth f.kind) (ratTrunc q)) }
        | _ => .error ("cannot convert " ++ v.typeName ++ " to " ++ f.kind.typeName)
      | .uint | .uint8 | .uint16 | .uint32 | .uint64 =>
        match v with
        | .vInt64 x => .ok { f with value := .vUint64 (wrapUnsigned (kindWidth f.kind) x) }
        | .vInt32 x => .ok { f with value := .vUint64 (wrapUnsigned (kindWidth f.kind) x) }
        | .vInt x => .ok { f with value := .vUint64 (wrapUnsigned (kindWidth f.kind) x) }
        | .vFloat64 q => .ok { f with value := .vUint64 (wrapUnsigned (kindWidth f.kind) (ratTrunc q)) }
        | _ => .error ("cannot convert " ++ v.typeName ++ " to " ++ f.kind.typeName)
      | .float32 | .float64 =>
        match v with
        | .vFloat64 q => .ok { f with value := .vFloat64 q }
        | .vInt64 x => .ok { f with value := .vFloat64 (x : ℚ) }
        | .vInt x => .ok { f with value := .vFloat64 (x : ℚ) }
        | _ => .error ("cannot convert " ++ v.typeName ++ " to " ++ f.kind.typeName)
      | .string =>
        match v with
        | .vString s => .ok { f with value := .vString s }
        | .vBytes bs => .ok { f with value := .vString (bytesToString bs) }
        | _ => .error ("cannot convert " ++ v.typeName ++ " to string")
      | .bool =>
        match v with
        | .vBool b => .ok { f with value := .vBool b }
        | .vInt64 x => .ok { f with value := .vBool (x != 0) }
        | _ => .error ("cannot convert " ++ v.typeName ++ " to bool")
      | .other _ => .error ("unsupported field type: " ++ f.kind.typeName)

/-- `strings.Contains(tag, "pk")` — the primary-key test used by
`Insert`, `Update` and `Delete` in `storm.go`. -/
def isPrimaryF (f : GoField) : Bool :=
  goContains (tagGet f) "pk"

/-- Column-name resolution of `Insert`/`Update` in `storm.go`: when the
tag contains `column`, the text after the first `:`; otherwise the
lower-cased field name.  (Go indexes `Split(tag, ":")[1]` and would
panic on a colon-free tag containing `column`; that input never occurs
here and is modelled as `""`.) -/
def colStorm (f : GoField) : String :=
  if goContains (tagGet f) "column" then (goSplitColon (tagGet f)).getD 1 ""
  else goToLower f.name

/-- Table-name derivation used by every operation:
`strings.ToLower(tipe.Name() + "s")`. -/
def tableName (tn : String) : String :=
  goToLower (tn ++ "s")

/-- The field loop of `Insert` (`storm.go` lines 58-86), with `i` the
declaration index of the head field: returns the accumulated
`(columns, placeholders, values)`. -/
def insertLoop : Nat → List GoField → List String × List String × List Val
  | _, [] => ([], [], [])
  | i, f :: fs =>
    let r := insertLoop (i + 1) fs
    if isPrimaryF f then r
    else (colStorm f :: r.1, ("$" ++ toString i) :: r.2.1, f.value :: r.2.2)

/-- `Storm.Insert` (`storm.go` lines 42-95): the SQL text handed to
`db.Exec` together with its ordered argument list.  `tn` is the struct
type's name and `fields` its fields in declaration order. -/
def insert (tn : String) (fields : List GoField) : String × List Val :=
  let r := insertLoop 0 fields
  ("INSERT INTO " ++ tableName tn ++ " (" ++ goJoin ", " r.1 ++ ") VALUES ("
      ++ goJoin ", " r.2.1 ++ ")",
    r.2.2)

/-- Accumulator of `Update`'s field loop: SET fragments, argument values,
the primary-key field name and value seen so far (initially `""`/nil),
and `paramCount`. -/
structure UpdAcc where
  setClause : List String
  vals : List Val
  pkField : String
  pkValue : Val
  paramCount : Nat
deriving DecidableEq, Repr

/-- The field loop of `Update` (`storm.go` lines 113-138), with `i` the
declaration index of the head field. -/
def updateLoop : Nat → UpdAcc → List GoField → UpdAcc
  | _, acc, [] => acc
  | i, acc, f :: fs =>
    if isPrimaryF f then
      updateLoop (i + 1) { acc with pkField := f.name, pkValue := f.value } fs
    else if !f.value.isZero then
      updateLoop (i + 1)
        { acc with
          setClause := acc.setClause ++ [colStorm f ++ " = $" ++ toString i]
          vals := acc.vals ++ [f.value]
          paramCount := acc.paramCount + 1 } fs
    else updateLoop (i + 1) acc fs

/-- `Storm.Update` (`storm.go` lines 100-153): either the
missing-primary-key error (in which case `db.Exec` is never called) or
the SQL text handed to `db.Exec` with its ordered argument list.  The
query string reproduces the Go raw-string literal, leading newline and
tabs included. -/
def update (tn : String) (fields : List GoField) : Except String (String × List Val) :=
  let acc := updateLoop 0 ⟨[], [], "", .vNull, 1⟩ fields
  if acc.pkField == "" then .error "no primary key is found for update"
  else
    .ok ("\n\t\tUPDATE " ++ tableName tn ++ " SET " ++ goJoin ", " acc.setClause
        ++ " WHERE " ++ acc.pkField ++ " = $" ++ toString acc.paramCount ++ "\n\t",
      acc.vals ++ [acc.pkValue])

/-- The field loop of `Delete` (`storm.go` lines 167-178): folds over the
fields keeping the last primary-key field's name and value (initially
`""`/nil) and counting primary-key fields. -/
def deleteLoop (st : String × Val × Nat) (fields : List GoField) : String × Val × Nat :=
  fields.foldl (fun st f => if isPrimaryF f then (f.name, f.value, st.2.2 + 1) else st) st

/-- `Storm.Delete` (`storm.go` lines 158-194): unconditionally returns
the SQL text handed to `db.Exec` with its single argument — there is no
missing-primary-key check and no error path before the `Exec` call. -/
def delete (tn : String) (fields : List GoField) : String × List Val :=
  let st := deleteLoop ("", .vNull, 0) fields
  ("\n\tDELETE FROM " ++ tableName tn ++ " WHERE " ++ st.1 ++ " = $"
      ++ toString st.2.2 ++ "\n\t",
    [st.2.1])

/-- The query facade of `query_builder.go` lines 12-18: accumulated
table, WHERE clause with its arguments, and LIMIT. -/
structure Query where
  table : String
  whereCond : String
  whereArgument : List Val
  limit : Int
deriving DecidableEq, Repr

/-- `Storm.From` (`query_builder.go` lines 22-28): bind the table name
derived from the model type's name; every other field starts zeroed. -/
def fromModel (tn : String) : Query :=
  ⟨tableName tn, "", [], 0⟩

/-- `Query.Where` (`query_builder.go` lines 32-36). -/
def whereQ (q : Query) (condition : String) (args : List Val) : Query :=
  { q with whereCond := condition, whereArgument := args }

/-- `Query.Limit` (`query_builder.go` lines 39-42). -/
def limitQ (q : Query) (n : Int) : Query :=
  { q with limit := n }

/-- The column list selected when explicit column names are passed:
`strings.Join(queryCol, ",")`, else `*`. -/
def selectedCols (queryCol : List String) : String :=
  if queryCol.isEmpty then "*" else goJoin "," queryCol

/-- The SQL text and arguments `First` hands to `db.Query`
(`query_builder.go` lines 47-66): optional WHERE, then ` LIMIT 1`. -/
def firstQuery (q : Query) (queryCol : List String) : String × List Val :=
  let base := "SELECT " ++ selectedCols queryCol ++ " FROM " ++ q.table
  if q.whereCond == "" then (base ++ " LIMIT 1", [])
  else (base ++ " WHERE " ++ q.whereCond ++ " LIMIT 1", q.whereArgument)

/-- The SQL text and arguments `Select` hands to `db.Query`
(`query_builder.go` lines 141-157): optional WHERE, then LIMIT only when
positive. -/
def selectQuery (q : Query) (queryCol : List String) : String × List Val :=
  let base := "SELECT " ++ selectedCols queryCol ++ " FROM " ++ q.table
  let withWhere :=
    if q.whereCond == "" then (base, ([] : List Val))
    else (base ++ " WHERE " ++ q.whereCond, q.whereArgument)
  if q.limit > 0 then (withWhere.1 ++ " LIMIT " ++ toString q.limit, withWhere.2)
  else withWhere

/-- `First`'s scan loop (`query_builder.go` lines 74-86): `vals` is
allocated once (all nil) and overwritten by each `rows.Scan`, so after
the loop it holds the last row, or all nils when the result set is
empty. -/
def scanLast (n : Nat) (rows : List (List Val)) : List Val :=
  rows.foldl (fun _ r => r) (List.replicate n .vNull)

/-- `First`'s column→field map (`query_builder.go` lines 90-104): key is
the lower-cased field name, overridden by the text after `:` whenever a
`storm` tag is present and splits into exactly two parts (the `column`
directive name is NOT checked here); value is the Go field name. -/
def buildHtFirst (fields : List GoField) : List (String × String) :=
  fields.map fun f =>
    let base := goToLower f.name
    match f.tag with
    | some tg =>
      let parts := goSplitColon tg
      if parts.length == 2 then (parts.getD 1 "", f.name) else (base, f.name)
    | none => (base, f.name)

/-- `Select`/`Paginate`'s column→field map (`query_builder.go` lines
217-231 and 346-360): like `buildHtFirst` but the override additionally
requires the part before `:` to equal `column`. -/
def buildHtSelect (fields : List GoField) : List (String × String) :=
  fields.map fun f =>
    let base := goToLower f.name
    match f.tag with
    | some tg =>
      let parts := goSplitColon tg
      if parts.length == 2 && parts.getD 0 "" == "column" then (parts.getD 1 "", f.name)
      else (base, f.name)
    | none => (base, f.name)

/-- Go map lookup over the association list built in field order: a later
entry with the same key overwrites an earlier one. -/
def htLookup (entries : List (String × String)) (key : String) : Option String :=
  entries.reverse.lookup key

/-- Replace the (unique) field named `n` — the in-place mutation behind
`reflect.Value.FieldByName(...).Set...`. -/
def replaceField : List GoField → String → GoField → List GoField
  | [], _, _ => []
  | f :: fs, n, g => if f.name == n then g :: fs else f :: replaceField fs n g

/-- `First`'s population loop (`query_builder.go` lines 106-123) over the
reported columns paired with the scanned values: unmapped or invalid
columns are skipped; a `setFieldValue` error is returned as-is. -/
def populateFirst (ht : List (String × String)) :
    List GoField → List (String × Val) → Except String (List GoField)
  | fields, [] => .ok fields
  | fields, (c, v) :: rest =>
    match htLookup ht c with
    | none => populateFirst ht fields rest
    | some fname =>
      match fields.find? (fun f => f.name == fname) with
      | none => populateFirst ht fields rest
      | some f =>
        match setFieldValue f v with
        | .error e => .error e
        | .ok f2 => populateFirst ht (replaceField fields fname f2) rest

/-- `Select`'s (and `Paginate`'s) per-row population loop
(`query_builder.go` lines 233-250 and 362-379): identical to `First`'s
except that a `setFieldValue` error is wrapped as
`error setting field <struct field name>: <cause>`. -/
def populateSelect (ht : List (String × String)) :
    List GoField → List (String × Val) → Except String (List GoField)
  | fields, [] => .ok fields
  | fields, (c, v) :: rest =>
    match htLookup ht c with
    | none => populateSelect ht fields rest
    | some fname =>
      match fields.find? (fun f => f.name == fname) with
      | none => populateSelect ht fields rest
      | some f =>
        match setFieldValue f v with
        | .error e => .error ("error setting field " ++ fname ++ ": " ++ e)
        | .ok f2 => populateSelect ht (replaceField fields fname f2) rest

/-- `Query.First` (`query_builder.go` lines 46-126), applied to the
result set the driver returned for `firstQuery`: scan every row into the
shared `vals` buffer, then populate `dest` from the last one (all nils
when there was no row). -/
def first (dest : List GoField) (columnNames : List String) (rows : List (List Val)) :
    Except String (List GoField) :=
  populateFirst (buildHtFirst dest) dest
    (columnNames.zip (scanLast columnNames.length rows))

/-- Zero value of a field kind (`reflect.New(tipe)`). -/
def zeroOf : Kind → Val
  | .int | .int8 | .int16 | .int32 | .int64 => .vInt64 0
  | .uint | .uint8 | .uint16 | .uint32 | .uint64 => .vUint64 0
  | .float32 | .float64 => .vFloat64 0
  | .string => .vString ""
  | .bool => .vBool false
  | .other _ => .vNull

/-- A freshly allocated destination struct: every field zeroed. -/
def zeroStruct (schema : List GoField) : List GoField :=
  schema.map fun f => { f with value := zeroOf f.kind }

/-- `Query.Select`'s row loop (`query_builder.go` lines 169-252), applied
to the driver's result set: each row populates a fresh zero struct; the
first error aborts the whole call. -/
def selectRows (schema : List GoField) (cols : List String) :
    List (List Val) → Except String (List (List GoField))
  | [] => .ok []
  | row :: rest =>
    match populateSelect (buildHtSelect schema) (zeroStruct schema) (cols.zip row) with
    | .error e => .error e
    | .ok st =>
      match selectRows schema cols rest with
      | .error e => .error e
      | .ok sts => .ok (st :: sts)

/-- The statements `Paginate` issues (`query_builder.go` lines 258-296):
the COUNT query handed to `db.QueryRow`, the computed total page count,
and the data query handed to `db.Query` with its two arguments.
`total` is the value the COUNT query scanned.  `math.Ceil` on the
`float64` quotient is modelled as the exact rational ceiling, with which
it agrees on every count below `2^53`. -/
structure PaginateStmts where
  countQuery : String
  totalPages : Int
  dataQuery : String
  dataArgs : List Int
deriving DecidableEq, Repr

/-- `Query.Paginate`'s statement construction (`query_builder.go` lines
258-296). -/
def paginate (q : Query) (page pageSize : Int) (total : Nat) (queryCol : List String) :
    PaginateStmts :=
  let page := if page < 1 then 1 else page
  let pageSize := if pageSize ≤ 0 then 1 else pageSize
  let countQuery := "SELECT COUNT(*) FROM " ++ q.table
  let totalPages := Int.ceil (mkRat total pageSize.toNat)
  let offset := (page - 1) * pageSize
  let dataQuery := "SELECT " ++ selectedCols queryCol ++ " FROM " ++ q.table
      ++ " ORDER BY id LIMIT $1 OFFSET $2"
  ⟨countQuery, totalPages, dataQuery, [pageSize, offset]⟩

/-- The `User` model of the repository's `models` package, holding the
values used by the demo program's `Update` call. -/
def userFields : List GoField :=
  [⟨"ID", some "pk", .int, .vInt 5⟩,
   ⟨"Name", some "column:name_user", .string, .vString "ammar"⟩,
   ⟨"Email", some "column:email_user", .string, .vString "dikha@pepeg.com"⟩]

/-- Declarative form of `Update`'s field selection: a field contributes
a SET fragment and an argument exactly when it is not primary-key-tagged
and its value is non-zero. -/
def keepUpd (f : GoField) : Bool :=
  !isPrimaryF f && !f.value.isZero

/-- Declarative form of the primary-key tracking shared by `Update` and
`Delete`: the last primary-key field's name and value, or the initial
state when none occurs. -/
def pkFold (st : String × Val) (fields : List GoField) : String × Val :=
  fields.foldl (fun st f => if isPrimaryF f then (f.name, f.value) else st) st

/-! ### Helper lemmas -/

theorem setFieldValue_vNull (f : GoField) : setFieldValue f .vNull = .ok f := rfl

theorem replaceField_find_self {l : List GoField} {n : String} {f : GoField}
    (h : l.find? (fun g => g.name == n) = some f) : replaceField l n f = l := by
  induction l with
  | nil => simp at h
  | cons a as ih =>
    by_cases ha : a.name == n
    · simp only [List.find?_cons, ha, Option.some.injEq] at h
      subst h
      simp [replaceField, ha]
    · simp only [List.find?_cons, ha] at h
      simp [replaceField, ha, ih h]

theorem populateFirst_all_null (ht : List (String × String)) (fields : List GoField)
    (ps : List (String × Val)) (h : ∀ p ∈ ps, p.2 = Val.vNull) :
    populateFirst ht fields ps = .ok fields := by
  induction ps generalizing fields with
  | nil => rfl
  | cons p rest ih =>
    obtain ⟨c, v⟩ := p
    have hv : v = Val.vNull := h (c, v) (List.mem_cons_self _ _)
    subst hv
    have hrest : ∀ p ∈ rest, p.2 = Val.vNull := fun p hp => h p (List.mem_cons_of_mem _ hp)
    cases hl : htLookup ht c with
    | none =>
      simp only [populateFirst, hl]
      exact ih _ hrest
    | some fname =>
      cases hf : fields.find? (fun g => g.name == fname) with
      | none =>
        simp only [populateFirst, hl, hf]
        exact ih _ hrest
      | some f =>
        simp only [populateFirst, hl, hf, setFieldValue_vNull, replaceField_find_self hf]
        exact ih _ hrest

theorem insertLoop_eq (fields : List GoField) : ∀ i : Nat,
    insertLoop i fields
      = ((fields.filter (fun f => !isPrimaryF f)).map colStorm,
         ((fields.enumFrom i).filter (fun p => !isPrimaryF p.2)).map
           (fun p => "$" ++ toString p.1),
         (fields.filter (fun f => !isPrimaryF f)).map (·.value)) := by
  induction fields with
  | nil => intro i; rfl
  | cons f fs ih =>
    intro i
    cases hp : isPrimaryF f with
    | true => simp [insertLoop, hp, List.enumFrom, List.filter_cons, ih]
    | false => simp [insertLoop, hp, List.enumFrom, List.filter_cons, ih]

theorem enumFrom_filter_snd_length (p : GoField → Bool) (fields : List GoField) :
    ∀ i : Nat,
    ((fields.enumFrom i).filter (fun q => p q.2)).length = (fields.filter p).length := by
  induction fields with
  | nil => intro i; rfl
  | cons f fs ih =>
    intro i
    cases hp : p f with
    | true => simp [List.enumFrom, List.filter_cons, hp, ih]
    | false => simp [List.enumFrom, List.filter_cons, hp, ih]

theorem pkFold_no_pk {fields : List GoField} (h : fields.filter isPrimaryF = []) :
    ∀ st : String × Val, pkFold st fields = st := by
  induction fields with
  | nil => intro st; rfl
  | cons f fs ih =>
    intro st
    rw [List.filter_cons] at h
    by_cases hp : isPrimaryF f
    · simp [hp] at h
    · rw [if_neg hp] at h
      have hstep : pkFold st (f :: fs) = pkFold st fs := by
        simp [pkFold, List.foldl_cons, hp]
      rw [hstep]
      exact ih h st

theorem pkFold_single {fields : List GoField} {p : GoField}
    (h : fields.filter isPrimaryF = [p]) :
    ∀ st : String × Val, pkFold st fields = (p.name, p.value) := by
  induction fields with
  | nil => intro st; simp at h
  | cons f fs ih =>
    intro st
    rw [List.filter_cons] at h
    by_cases hp : isPrimaryF f
    · rw [if_pos hp] at h
      injection h with hf hrest
      subst hf
      have hstep : pkFold st (f :: fs) = pkFold (f.name, f.value) fs := by
        simp [pkFold, List.foldl_cons, hp]
      rw [hstep]
      exact pkFold_no_pk hrest _
    · rw [if_neg hp] at h
      have hstep : pkFold st (f :: fs) = pkFold st fs := by
        simp [pkFold, List.foldl_cons, hp]
      rw [hstep]
      exact ih h st

theorem updateLoop_eq (fields : List GoField) : ∀ (i : Nat) (acc : UpdAcc),
    updateLoop i acc fields
      = ⟨acc.setClause ++ ((fields.enumFrom i).filter (fun p => keepUpd p.2)).map
            (fun p => colStorm p.2 ++ " = $" ++ toString p.1),
         acc.vals ++ (fields.filter keepUpd).map (·.value),
         (pkFold (acc.pkField, acc.pkValue) fields).1,
         (pkFold (acc.pkField, acc.pkValue) fields).2,
         acc.paramCount + (fields.filter keepUpd).length⟩ := by
  induction fields with
  | nil => intro i acc; simp [updateLoop, pkFold]
  | cons f fs ih =>
    intro i acc
    by_cases hp : isPrimaryF f
    · simp [updateLoop, hp, keepUpd, List.enumFrom, List.filter_cons, pkFold,
        List.foldl_cons, ih]
    · by_cases hz : f.value.isZero
      · simp [updateLoop, hp, hz, keepUpd, List.enumFrom, List.filter_cons, pkFold,
          List.foldl_cons, ih]
      · simp [updateLoop, hp, hz, keepUpd, List.enumFrom, List.filter_cons, pkFold,
          List.foldl_cons, ih, List.append_assoc]
        omega

/-- Ceiling of the exact rational `t / d` as the Go code's
`int(math.Ceil(float64(t) / float64(d)))` computes it, expressed as
Nat ceiling division. -/
theorem ceil_mkRat_eq (t d : Nat) (hd : 0 < d) :
    ⌈mkRat (t : Int) d⌉ = ((t + d - 1) / d : Nat) := by
  set z := (t + d - 1) / d with hzdef
  have hdm : d * z + (t + d - 1) % d = t + d - 1 := Nat.div_add_mod _ _
  have hml : (t + d - 1) % d < d := Nat.mod_lt _ hd
  obtain ⟨w, hw⟩ : ∃ w, d * z = w := ⟨_, rfl⟩
  obtain ⟨r, hr⟩ : ∃ r, (t + d - 1) % d = r := ⟨_, rfl⟩
  rw [hw, hr] at hdm
  rw [hr] at hml
  have hA : t ≤ w := by omega
  have hB : w ≤ t + d - 1 := by omega
  have h1td : (1 : ℕ) ≤ t + d := by omega
  have hd' : (0 : ℚ) < d := by exact_mod_cast hd
  have hq : (mkRat (t : Int) d : ℚ) = (t : ℚ) / (d : ℚ) := by
    rw [Rat.mkRat_eq_div]
    norm_num
  have hA' : (t : ℚ) ≤ (d : ℚ) * (z : ℚ) := by
    have : t ≤ d * z := hw ▸ hA
    exact_mod_cast this
  have hB' : (d : ℚ) * (z : ℚ) ≤ (t : ℚ) + (d : ℚ) - 1 := by
    have h0 : d * z ≤ t + d - 1 := hw ▸ hB
    have h2 : ((d * z : ℕ) : ℚ) ≤ ((t + d - 1 : ℕ) : ℚ) := by exact_mod_cast h0
    rw [Nat.cast_sub h1td] at h2
    push_cast at h2 ⊢
    linarith
  rw [hq, Int.ceil_eq_iff]
  constructor
  · rw [lt_div_iff₀ hd']
    push_cast
    linarith
  · rw [div_le_iff₀ hd']
    push_cast
    linarith

/-! ### Claims -/

/-- Claim C1 (code bug).  The claim (and the spec) say `Delete` fails
with a missing-primary-key error, issuing no SQL, when the record type
has no primary-key field.  The code has no such check (contrast
`Update`): on the one-field type `Task` with no `storm:"pk"` tag it
builds the malformed statement `DELETE FROM tasks WHERE  = $0` — empty
column name, placeholder `$0` — and hands it to `db.Exec` with the nil
primary-key value as its single argument.  `delete` cannot even return
an error: its result type is the issued statement. -/
theorem c1_delete_without_pk_issues_exec :
    delete "Task" [⟨"Name", none, .string, .vString "x"⟩]
      = ("\n\tDELETE FROM tasks WHERE  = $0\n\t", [.vNull]) := by decide

/-- Claim C2, counterexample.  Coercing a source of dynamic type `int32`
with value 7 into a `float64` field does not succeed with 7.0: the
floating-point branch of `setFieldValue` has no `int32` case, so it
returns a cannot-convert error. -/
theorem c2_int32_to_float64_cex :
    setFieldValue ⟨"Score", none, .float64, .vFloat64 0⟩ (.vInt32 7)
      = .error "cannot convert int32 to float64" := by decide

/-- Claim C2, amended.  Coercion into a `float64` target field accepts
`float64`, `int64` and `int` sources (the latter two widened exactly),
but rejects an `int32` source with a cannot-convert error naming both
types. -/
theorem c2_float_target_sources (name : String) (tag : Option String) (v0 : Val)
    (q : ℚ) (n : Int) (m : Int) :
    setFieldValue ⟨name, tag, .float64, v0⟩ (.vFloat64 q)
        = .ok ⟨name, tag, .float64, .vFloat64 q⟩ ∧
    setFieldValue ⟨name, tag, .float64, v0⟩ (.vInt64 n)
        = .ok ⟨name, tag, .float64, .vFloat64 (n : ℚ)⟩ ∧
    setFieldValue ⟨name, tag, .float64, v0⟩ (.vInt n)
        = .ok ⟨name, tag, .float64, .vFloat64 (n : ℚ)⟩ ∧
    setFieldValue ⟨name, tag, .float64, v0⟩ (.vInt32 m)
        = .error "cannot convert int32 to float64" :=
  ⟨rfl, rfl, rfl, rfl⟩

/-- Claim C3.  For a record type with exactly one primary-key field and
N non-key fields, `Insert` emits exactly N columns (the non-key fields'
resolved column names in declaration order), exactly N placeholders, and
passes exactly N arguments — the non-key fields' values in declaration
order, so the i-th argument belongs to the i-th column. -/
theorem c3_insert_columns_placeholders_args (tn : String) (fields : List GoField)
    (h : (fields.filter isPrimaryF).length = 1) :
    (insertLoop 0 fields).1 = (fields.filter (fun f => !isPrimaryF f)).map colStorm ∧
    (insertLoop 0 fields).2.1.length = (fields.filter (fun f => !isPrimaryF f)).length ∧
    (insertLoop 0 fields).2.2 = (fields.filter (fun f => !isPrimaryF f)).map (·.value) ∧
    insert tn fields
      = ("INSERT INTO " ++ tableName tn ++ " ("
          ++ goJoin ", " ((fields.filter (fun f => !isPrimaryF f)).map colStorm)
          ++ ") VALUES (" ++ goJoin ", " (insertLoop 0 fields).2.1 ++ ")",
         (fields.filter (fun f => !isPrimaryF f)).map (·.value)) := by
  have he := insertLoop_eq fields 0
  refine ⟨?_, ?_, ?_, ?_⟩
  · rw [he]
  · simp only [he, List.length_map]
    exact enumFrom_filter_snd_length (fun f => !isPrimaryF f) fields 0
  · rw [he]
  · simp [insert, he]

/-- Witness for C3 on the repository's `User` model: one primary key,
two non-key fields, two columns, two placeholders, two arguments. -/
theorem c3_insert_columns_placeholders_args_witness :
    (insertLoop 0 userFields).1
        = (userFields.filter (fun f => !isPrimaryF f)).map colStorm ∧
    (insertLoop 0 userFields).2.1.length
        = (userFields.filter (fun f => !isPrimaryF f)).length ∧
    (insertLoop 0 userFields).2.2
        = (userFields.filter (fun f => !isPrimaryF f)).map (·.value) ∧
    insert "User" userFields
      = ("INSERT INTO " ++ tableName "User" ++ " ("
          ++ goJoin ", " ((userFields.filter (fun f => !isPrimaryF f)).map colStorm)
          ++ ") VALUES (" ++ goJoin ", " (insertLoop 0 userFields).2.1 ++ ")",
         (userFields.filter (fun f => !isPrimaryF f)).map (·.value)) :=
  c3_insert_columns_placeholders_args "User" userFields (by decide)

/-- Claim C4.  `Paginate` clamps `page` to minimum 1 and `pageSize` to
minimum 1, computes `totalPages` as the ceiling division of the scanned
total by the clamped page size, and passes the clamped page size and the
offset `(page - 1) * pageSize` as the data query's arguments; in
particular a total of 7 with page size 3 yields 3 total pages. -/
theorem c4_paginate_clamps_and_ceiling (t w : String) (a : List Val) (l : Int)
    (page pageSize : Int) (total : Nat) (cols : List String) :
    (paginate ⟨t, w, a, l⟩ page pageSize total cols).totalPages
        = (((total + (if pageSize ≤ 0 then 1 else pageSize).toNat - 1)
            / (if pageSize ≤ 0 then 1 else pageSize).toNat : Nat) : Int) ∧
    (paginate ⟨t, w, a, l⟩ page pageSize total cols).dataArgs
        = [if pageSize ≤ 0 then 1 else pageSize,
           ((if page < 1 then 1 else page) - 1) * (if pageSize ≤ 0 then 1 else pageSize)] ∧
    (paginate (fromModel "User") 1 3 7 []).totalPages = 3 := by
  refine ⟨?_, rfl, by decide⟩
  show ⌈mkRat (total : Int) (if pageSize ≤ 0 then 1 else pageSize).toNat⌉ = _
  apply ceil_mkRat_eq
  by_cases hps : pageSize ≤ 0
  · simp [hps]
  · simp only [if_neg hps]
    omega

/-- Claim C5.  `First` against a result set with zero rows leaves every
destination field exactly as it was and returns no error: the scan
buffer keeps its initial all-nil contents, and `setFieldValue` leaves a
field untouched on a nil source. -/
theorem c5_first_empty_resultset (dest : List GoField) (cols : List String) :
    first dest cols [] = .ok dest := by
  unfold first scanLast
  simp only [List.foldl_nil]
  apply populateFirst_all_null
  intro p hp
  exact List.eq_of_mem_replicate (List.of_mem_zip hp).2

/-- Claim C6, counterexample.  The claim says the WHERE clause targets
the primary key's column: for the repository's own `User` model the pk
column resolved per the tag rules is `id` (lower-cased field name), yet
`Update` emits `WHERE ID = $3` — the raw Go field name — so the emitted
statement does not contain `WHERE id = $3` and is not of the claimed
`WHERE <pk_column> = $<n>` form. -/
theorem c6_update_targets_field_name_cex :
    update "User" userFields
        = .ok ("\n\t\tUPDATE users SET name_user = $1, email_user = $2 WHERE ID = $3\n\t",
           [.vString "ammar", .vString "dikha@pepeg.com", .vInt 5]) ∧
    colStorm ⟨"ID", some "pk", .int, .vInt 5⟩ = "id" ∧
    goContains "\n\t\tUPDATE users SET name_user = $1, email_user = $2 WHERE ID = $3\n\t"
        "WHERE id = $3" = false ∧
    goContains "\n\t\tUPDATE users SET name_user = $1, email_user = $2 WHERE ID = $3\n\t"
        "WHERE ID = $3" = true := by decide

/-- Claim C6, amended.  With exactly one primary-key field `p`, `Update`
emits `UPDATE <table> SET <fragments> WHERE <pk Go field name> = $<n>`
— the WHERE clause targets the raw Go field name (`ID`), not the
resolved pk column name (`id`), which may differ in case or via a
`column` directive — the SET fragments coming from the non-zero non-key
fields in declaration order, `n` being their count plus one; it passes
as arguments the non-zero non-key field values in declaration order
followed by the primary-key value last; with no primary-key field it
returns the missing-primary-key error, and no SQL reaches `db.Exec`. -/
theorem c6_update_statement_and_args (tn : String) (fields : List GoField)
    (p : GoField) :
    (fields.filter isPrimaryF = [p] → p.name ≠ "" →
      update tn fields
        = .ok ("\n\t\tUPDATE " ++ tableName tn ++ " SET "
            ++ goJoin ", " (((fields.enumFrom 0).filter (fun q => keepUpd q.2)).map
                (fun q => colStorm q.2 ++ " = $" ++ toString q.1))
            ++ " WHERE " ++ p.name ++ " = $"
            ++ toString ((fields.filter keepUpd).length + 1) ++ "\n\t",
          (fields.filter keepUpd).map (·.value) ++ [p.value])) ∧
    (fields.filter isPrimaryF = [] →
      update tn fields = .error "no primary key is found for update") := by
  constructor
  · intro h hn
    have hbeq : (p.name == "") = false := by
      cases hb : p.name == "" with
      | true => exact absurd (eq_of_beq hb) hn
      | false => rfl
    unfold update
    rw [updateLoop_eq]
    simp [pkFold_single h, hbeq, Nat.add_comm]
  · intro h
    unfold update
    rw [updateLoop_eq]
    simp [pkFold_no_pk h]

/-- Witness for C6 on the repository's `User` model with the demo
program's values: both non-key fields are non-zero, and the primary key
`ID` is targeted last as `$3`. -/
theorem c6_update_statement_and_args_witness :
    update "User" userFields
        = .ok ("\n\t\tUPDATE " ++ tableName "User" ++ " SET "
            ++ goJoin ", " (((userFields.enumFrom 0).filter (fun q => keepUpd q.2)).map
                (fun q => colStorm q.2 ++ " = $" ++ toString q.1))
            ++ " WHERE " ++ "ID" ++ " = $"
            ++ toString ((userFields.filter keepUpd).length + 1) ++ "\n\t",
          (userFields.filter keepUpd).map (·.value) ++ [.vInt 5]) :=
  (c6_update_statement_and_args "User" userFields
      ⟨"ID", some "pk", .int, .vInt 5⟩).1 (by decide) (by decide)

/-- Claim C7, counterexample.  Mapping the database column `name_user`
(an `int64` value) into the `string` field `Name` fails; `First` returns
the bare coercion error and `Select`/`Paginate` wrap it with the struct
field name `Name` — neither message contains the offending database
column name `name_user`. -/
theorem c7_error_lacks_column_name_cex :
    first userFields ["name_user"] [[.vInt64 5]]
        = .error "cannot convert int64 to string" ∧
    goContains "cannot convert int64 to string" "name_user" = false ∧
    populateSelect (buildHtSelect userFields) userFields [("name_user", .vInt64 5)]
        = .error "error setting field Name: cannot convert int64 to string" ∧
    goContains "error setting field Name: cannot convert int64 to string" "name_user"
        = false := by decide

/-- Claim C7, amended.  A coercion failure aborts the row population at
the failing column (the remaining columns are never processed);
`Select` and `Paginate` report it as
`error setting field <struct field name>: <cause>` — naming the
destination struct field, which need not equal the database column name
— while `First` returns the bare coercion error, naming only the source
and target types. -/
theorem c7_coercion_failure_aborts_row (ht : List (String × String))
    (fields : List GoField) (rest : List (String × Val)) (c : String) (v : Val)
    (fname : String) (f : GoField) (e : String)
    (h1 : htLookup ht c = some fname)
    (h2 : fields.find? (fun g => g.name == fname) = some f)
    (h3 : setFieldValue f v = .error e) :
    populateSelect ht fields ((c, v) :: rest)
        = .error ("error setting field " ++ fname ++ ": " ++ e) ∧
    populateFirst ht fields ((c, v) :: rest) = .error e := by
  constructor
  · simp only [populateSelect, h1, h2, h3]
  · simp only [populateFirst, h1, h2, h3]

/-- Witness for C7's amended theorem at the concrete `User` destination
and column `name_user`. -/
theorem c7_coercion_failure_aborts_row_witness :
    populateSelect (buildHtSelect userFields) userFields
        [("name_user", .vInt64 5), ("email_user", .vString "z")]
        = .error ("error setting field " ++ "Name" ++ ": "
            ++ "cannot convert int64 to string") ∧
    populateFirst (buildHtSelect userFields) userFields
        [("name_user", .vInt64 5), ("email_user", .vString "z")]
        = .error "cannot convert int64 to string" :=
  c7_coercion_failure_aborts_row (buildHtSelect userFields) userFields
    [("email_user", .vString "z")] "name_user" (.vInt64 5) "Name"
    ⟨"Name", some "column:name_user", .string, .vString "ammar"⟩
    "cannot convert int64 to string" (by decide) (by decide) (by decide)

/-- Claim C8.  Coercing a `float64` source into an `int64` field goes
through Go's `int64(v)` conversion, which truncates toward zero: 7.9
yields 7 (not 8), and -7.9 yields -7 (truncation toward zero, not
floor). -/
theorem c8_float_to_int64_truncates :
    setFieldValue ⟨"Age", none, .int64, .vInt64 0⟩ (.vFloat64 (mkRat 79 10))
        = .ok ⟨"Age", none, .int64, .vInt64 7⟩ ∧
    setFieldValue ⟨"Age", none, .int64, .vInt64 0⟩ (.vFloat64 (mkRat (-79) 10))
        = .ok ⟨"Age", none, .int64, .vInt64 (-7)⟩ := by decide

/-- Claim C9.  `Paginate` ignores the facade's accumulated WHERE and
LIMIT state entirely: whatever `Where`/`Limit` set, the COUNT query is
exactly `SELECT COUNT(*) FROM <table>`, the data query is exactly
`SELECT <cols> FROM <table> ORDER BY id LIMIT $1 OFFSET $2`, its only
arguments are the clamped page size and the offset, the result coincides
with that for a pristine facade, and neither concrete query contains a
WHERE clause. -/
theorem c9_paginate_ignores_facade (tn w : String) (a : List Val) (l : Int)
    (page pageSize : Int) (total : Nat) (cols : List String) :
    (paginate (limitQ (whereQ (fromModel tn) w a) l) page pageSize total cols).countQuery
        = "SELECT COUNT(*) FROM " ++ tableName tn ∧
    (paginate (limitQ (whereQ (fromModel tn) w a) l) page pageSize total cols).dataQuery
        = "SELECT " ++ selectedCols cols ++ " FROM " ++ tableName tn
            ++ " ORDER BY id LIMIT $1 OFFSET $2" ∧
    (paginate (limitQ (whereQ (fromModel tn) w a) l) page pageSize total cols).dataArgs
        = [if pageSize ≤ 0 then 1 else pageSize,
           ((if page < 1 then 1 else page) - 1) * (if pageSize ≤ 0 then 1 else pageSize)] ∧
    paginate (limitQ (whereQ (fromModel tn) w a) l) page pageSize total cols
        = paginate (fromModel tn) page pageSize total cols ∧
    goContains (paginate (limitQ (whereQ (fromModel "User") "id = $1" [.vInt 10]) 5)
        2 3 7 []).dataQuery " WHERE " = false ∧
    goContains (paginate (limitQ (whereQ (fromModel "User") "id = $1" [.vInt 10]) 5)
        2 3 7 []).countQuery " WHERE " = false :=
  ⟨rfl, rfl, rfl, rfl, by decide, by decide⟩

/-- Claim C10, counterexample.  An `int64` source value 300 stored into
an `int8` field neither panics nor errors: `reflect.Value.SetInt`
performs the plain narrowing conversion `int8(300)`, silently wrapping
to 44, and `setFieldValue` reports success. -/
theorem c10_int8_overflow_cex :
    setFieldValue ⟨"Age", none, .int8, .vInt64 0⟩ (.vInt64 300)
      = .ok ⟨"Age", none, .int8, .vInt64 44⟩ := by decide

/-- Claim C10, amended.  For an accepted `int64` source into an `int8`
field, `setFieldValue` always succeeds: `reflect.Value.SetInt` stores
the value reduced into `[-128, 127]` congruent to the source modulo
`2^8` (Go's wrapping conversion), so out-of-range sources wrap silently
— e.g. 300 becomes 44 — instead of panicking or erroring. -/
theorem c10_int8_overflow_wraps (name : String) (tag : Option String) (v0 : Val)
    (x : Int) :
    setFieldValue ⟨name, tag, .int8, v0⟩ (.vInt64 x)
        = .ok ⟨name, tag, .int8, .vInt64 (wrapSigned 8 x)⟩ ∧
    -128 ≤ wrapSigned 8 x ∧ wrapSigned 8 x ≤ 127 ∧
    (x - wrapSigned 8 x) % 256 = 0 ∧ wrapSigned 8 300 = 44 := by
  have hw : wrapSigned 8 x = (x + 128) % 256 - 128 := by norm_num [wrapSigned]
  refine ⟨rfl, ?_, ?_, ?_, by decide⟩ <;> rw [hw] <;> omega

end Storm
